import Mathlib

/-!
Verification development for the `veritas` multi-agent research pipeline.

The Python source is shallowly embedded: pure helpers become Lean
functions, the mutable `CircuitBreaker` object becomes explicit state
passing, timestamps (`datetime`) become rationals, exceptions become
`Except String` values carrying the exception message, and the
nondeterministic LLM-backed agents become oracle functions indexed by a
call counter.  Python `float` scores/thresholds are embedded as `Rat`
(all comparisons in scope involve exactly representable values).
-/

/-! ### Python string primitives

Embeddings of the Python string operations the source relies on:
`in` (substring test), `.lower()`, slicing `[:n]`, and `.strip()`.
They operate on the code-point list, matching Python semantics for the
ASCII data handled here. -/

/-- Python `needle in haystack` on lists of characters. -/
def listInfixOf (needle : List Char) : List Char → Bool
  | [] => needle.isEmpty
  | c :: rest => needle.isPrefixOf (c :: rest) || listInfixOf needle rest

/-- Python `needle in haystack` for strings. -/
def pyIn (needle haystack : String) : Bool :=
  listInfixOf needle.toList haystack.toList

/-- Python `s.lower()`. -/
def pyLower (s : String) : String :=
  ⟨s.toList.map Char.toLower⟩

/-- Python `s[:n]`. -/
def pyTake (n : Nat) (s : String) : String :=
  ⟨s.toList.take n⟩

/-- Python `s.strip()`. -/
def pyStrip (s : String) : String :=
  ⟨((s.toList.dropWhile Char.isWhitespace).reverse.dropWhile Char.isWhitespace).reverse⟩

/-- Python `x or default` for an optional string: `None` and `""` are falsy. -/
def pyOrStr (o : Option String) (d : String) : String :=
  match o with
  | none => d
  | some s => if s = "" then d else s

/-! ### `src/config/retry.py` — error classification -/

/-- Embedding of `non_retryable_keywords` from `is_retryable_error`. -/
def nonRetryableKeywords : List String :=
  ["insufficient_quota", "billing", "quota", "exceeded your current quota", "account"]

/-- Embedding of `retryable_keywords` from `is_retryable_error`. -/
def retryableKeywords : List String :=
  ["rate_limit", "rate limit", "too many requests", "service_unavailable",
   "service unavailable", "temporarily unavailable", "api_error"]

/-- Embedding of `retryable_types` from `is_retryable_error`. -/
def retryableTypes : List String :=
  ["RateLimitError", "APIError", "APITimeoutError", "ServiceUnavailableError",
   "ConnectionError", "TimeoutError"]

/-- Embedding of `is_retryable_error(exception)`: the exception is embedded as its type
name (`type(exception).__name__`) and its message (`str(exception)`). -/
def is_retryable_error (typeName message : String) : Bool :=
  let m := pyLower message
  if nonRetryableKeywords.any (fun k => pyIn k m) then false
  else if retryableKeywords.any (fun k => pyIn k m) then true
  else retryableTypes.contains typeName

/-! ### `src/infrastructure/circuit_breaker.py` -/

/-- Embedding of `CircuitState`. -/
inductive CircuitState where
  | CLOSED
  | OPEN
  | HALF_OPEN
  deriving DecidableEq, Repr

/-- Embedding of `CircuitStats`. -/
structure CircuitStats where
  total_calls : Nat := 0
  successful_calls : Nat := 0
  failed_calls : Nat := 0
  last_failure_time : Option Rat := none
  last_success_time : Option Rat := none
  deriving DecidableEq, Repr

/-- Embedding of `CircuitBreakerConfig`. -/
structure CircuitBreakerConfig where
  failure_threshold : Nat := 5
  success_threshold : Nat := 3
  cooldown_seconds : Rat := 30
  timeout_seconds : Rat := 30
  deriving DecidableEq, Repr

/-- Embedding of `CircuitBreaker` instance state: the `__init__`-set attributes.
`datetime` values are embedded as rationals supplied by the caller as
`now` (the embedding of `datetime.utcnow()`). -/
structure CircuitBreaker where
  name : String
  config : CircuitBreakerConfig
  state : CircuitState := .CLOSED
  stats : CircuitStats := {}
  failure_count : Nat := 0
  success_count : Nat := 0
  last_failure_time : Option Rat := none
  opened_at : Option Rat := none
  deriving DecidableEq, Repr

/-- Embedding of `CircuitBreaker.__init__(name, config)`. -/
def CircuitBreaker.init (name : String) (config : CircuitBreakerConfig) : CircuitBreaker :=
  { name := name, config := config }

/-- The `state` property: reading state while OPEN lazily transitions to
HALF_OPEN once the cooldown has elapsed.  Returns the observed state and
the (possibly mutated) breaker. -/
def CircuitBreaker.readState (b : CircuitBreaker) (now : Rat) : CircuitState × CircuitBreaker :=
  match b.state, b.opened_at with
  | .OPEN, some t =>
      if t + b.config.cooldown_seconds < now then
        (.HALF_OPEN, { b with state := .HALF_OPEN })
      else (.OPEN, b)
  | s, _ => (s, b)

/-- Embedding of `record_success()`. -/
def CircuitBreaker.record_success (b : CircuitBreaker) (now : Rat) : CircuitBreaker :=
  let b := { b with
    stats := { b.stats with
      total_calls := b.stats.total_calls + 1
      successful_calls := b.stats.successful_calls + 1
      last_success_time := some now } }
  if b.state = .HALF_OPEN then
    let sc := b.success_count + 1
    if b.config.success_threshold ≤ sc then
      { b with failure_count := 0, success_count := 0, state := .CLOSED }
    else
      { b with success_count := sc }
  else b

/-- Embedding of `record_failure()`. -/
def CircuitBreaker.record_failure (b : CircuitBreaker) (now : Rat) : CircuitBreaker :=
  let b := { b with
    stats := { b.stats with
      total_calls := b.stats.total_calls + 1
      failed_calls := b.stats.failed_calls + 1
      last_failure_time := some now }
    last_failure_time := some now }
  match b.state with
  | .HALF_OPEN => { b with state := .OPEN, opened_at := some now }
  | .CLOSED =>
      let fc := b.failure_count + 1
      if b.config.failure_threshold ≤ fc then
        { b with failure_count := fc, opened_at := some now, state := .OPEN }
      else
        { b with failure_count := fc }
  | .OPEN => b

/-- Embedding of `allow_request()`: `self.state != CircuitState.OPEN` (the state read
may itself mutate the breaker). -/
def CircuitBreaker.allow_request (b : CircuitBreaker) (now : Rat) : Bool × CircuitBreaker :=
  let sb := b.readState now
  (sb.1 ≠ .OPEN, sb.2)

/-- Embedding of `CircuitBreakerRegistry.reset(name)` applied to the named breaker:
force CLOSED and zero both consecutive counters. -/
def CircuitBreaker.registryReset (b : CircuitBreaker) : CircuitBreaker :=
  { b with state := .CLOSED, failure_count := 0, success_count := 0 }

/-- Embedding of `k` consecutive `record_failure` calls (all at time `now`). -/
def CircuitBreaker.iterFailures (b : CircuitBreaker) (now : Rat) : Nat → CircuitBreaker
  | 0 => b
  | k + 1 => (b.iterFailures now k).record_failure now

/-- Embedding of `k` consecutive `record_success` calls (all at time `now`). -/
def CircuitBreaker.iterSuccesses (b : CircuitBreaker) (now : Rat) : Nat → CircuitBreaker
  | 0 => b
  | k + 1 => (b.iterSuccesses now k).record_success now

/-! ### `src/domain/interfaces.py` — `AgentContext` -/

/-- Embedding of `AgentContext` (the dataclass fields; `metadata` is an open
string-keyed map, embedded as an association list). -/
structure AgentContext where
  correlation_id : String
  request_id : String
  created_at : Rat
  metadata : List (String × String)
  deriving DecidableEq, Repr

/-- Embedding of `AgentContext.create(correlation_id=None)`:
`correlation_id or ""` with Python truthiness. -/
def AgentContext.create (correlation_id : Option String) (now : Rat) : AgentContext :=
  { correlation_id := pyOrStr correlation_id ""
    request_id := ""
    created_at := now
    metadata := [] }

/-! ### `src/domain/events.py`

Each factory calls `uuid4()` for the event id and, when the supplied
correlation id is `None` or `""`, again for the correlation id.  The
uuid supply is embedded as an injective function from a freshness index
to non-empty strings; each `create` receives the two fresh strings
drawn for it.  The `payload` dict mirrors the typed fields verbatim and
is omitted from the embedding. -/

/-- An injective model of `str(uuid4())` draws: draw `n` yields a
non-empty string distinct from every other draw. -/
def uuidStr (n : Nat) : String :=
  ⟨List.replicate (n + 1) 'u'⟩

/-- A fact-check claim dict as read by the code: only the keys
`"text"`, `"status"`, `"note"` are ever accessed (via `.get`). -/
structure ClaimDict where
  text : Option String := none
  status : Option String := none
  note : Option String := none
  deriving DecidableEq, Repr

/-- Embedding of `DomainEvent` base fields. -/
structure DomainEvent where
  event_id : String
  timestamp : Rat
  correlation_id : String
  event_type : String
  deriving DecidableEq, Repr

/-- Embedding of `DomainEvent.create(event_type, payload, correlation_id)`. -/
def DomainEvent.create (event_type : String) (correlation_id : Option String)
    (freshEventId freshCid : String) (now : Rat) : DomainEvent :=
  { event_id := freshEventId
    timestamp := now
    correlation_id := pyOrStr correlation_id freshCid
    event_type := event_type }

/-- Embedding of `ResearchCompleted` (base fields plus typed payload). -/
structure ResearchCompleted extends DomainEvent where
  topic : String
  sources : List (List (String × String))
  findings : List String
  deriving DecidableEq, Repr

/-- Embedding of `ResearchCompleted.create(topic, sources, findings, correlation_id)`. -/
def ResearchCompleted.create (topic : String) (sources : List (List (String × String)))
    (findings : List String) (correlation_id : Option String)
    (freshEventId freshCid : String) (now : Rat) : ResearchCompleted :=
  { event_id := freshEventId
    timestamp := now
    correlation_id := pyOrStr correlation_id freshCid
    event_type := "research.completed"
    topic := topic
    sources := sources
    findings := findings }

/-- Embedding of `FactCheckCompleted`. -/
structure FactCheckCompleted extends DomainEvent where
  claims : List ClaimDict
  verified_claims : List ClaimDict
  confidence_scores : List (String × Rat)
  deriving DecidableEq, Repr

/-- Embedding of `FactCheckCompleted.create(claims, verified_claims, confidence_scores,
correlation_id)`. -/
def FactCheckCompleted.create (claims verified_claims : List ClaimDict)
    (confidence_scores : List (String × Rat)) (correlation_id : Option String)
    (freshEventId freshCid : String) (now : Rat) : FactCheckCompleted :=
  { event_id := freshEventId
    timestamp := now
    correlation_id := pyOrStr correlation_id freshCid
    event_type := "fact_check.completed"
    claims := claims
    verified_claims := verified_claims
    confidence_scores := confidence_scores }

/-- Embedding of `SynthesisCompleted`. -/
structure SynthesisCompleted extends DomainEvent where
  insights : List String
  resolved_contradictions : List (List (String × String))
  deriving DecidableEq, Repr

/-- Embedding of `SynthesisCompleted.create(insights, resolved_contradictions,
correlation_id)`. -/
def SynthesisCompleted.create (insights : List String)
    (resolved_contradictions : List (List (String × String)))
    (correlation_id : Option String)
    (freshEventId freshCid : String) (now : Rat) : SynthesisCompleted :=
  { event_id := freshEventId
    timestamp := now
    correlation_id := pyOrStr correlation_id freshCid
    event_type := "synthesis.completed"
    insights := insights
    resolved_contradictions := resolved_contradictions }

/-- Embedding of `ReportWritten`. -/
structure ReportWritten extends DomainEvent where
  title : String
  content : String
  format : String
  deriving DecidableEq, Repr

/-- Embedding of `ReportWritten.create(title, content, format, correlation_id)`. -/
def ReportWritten.create (title content format : String)
    (correlation_id : Option String)
    (freshEventId freshCid : String) (now : Rat) : ReportWritten :=
  { event_id := freshEventId
    timestamp := now
    correlation_id := pyOrStr correlation_id freshCid
    event_type := "report.written"
    title := title
    content := content
    format := format }

/-- Embedding of `ReportReviewed`. -/
structure ReportReviewed extends DomainEvent where
  suggestions : List String
  score : Rat
  approved : Bool
  deriving DecidableEq, Repr

/-- Embedding of `ReportReviewed.create(suggestions, score, approved, correlation_id)`. -/
def ReportReviewed.create (suggestions : List String) (score : Rat) (approved : Bool)
    (correlation_id : Option String)
    (freshEventId freshCid : String) (now : Rat) : ReportReviewed :=
  { event_id := freshEventId
    timestamp := now
    correlation_id := pyOrStr correlation_id freshCid
    event_type := "report.reviewed"
    suggestions := suggestions
    score := score
    approved := approved }

/-! ### `src/agents/factchecker.py` — `_ensure_claims_coverage` -/

/-- Embedding of `c.get("text", "").lower()[:50]`: the matched prefix of an existing
claim's text. -/
def claimTextHead50 (c : ClaimDict) : String :=
  pyTake 50 (pyLower (c.text.getD ""))

/-- Embedding of `finding.strip().lower()[:50]`: a finding's fingerprint. -/
def fingerprintOf (f : String) : String :=
  pyTake 50 (pyLower (pyStrip f))

/-- Embedding of `any(fingerprint in c.get("text", "").lower()[:50] for c in claims)`. -/
def isCovered (claims : List ClaimDict) (f : String) : Bool :=
  claims.any (fun c => pyIn (fingerprintOf f) (claimTextHead50 c))

/-- The `missing_findings` list: findings whose fingerprint is not
covered by any existing claim, in order. -/
def uncoveredFindings (claims : List ClaimDict) (findings : List String) : List String :=
  findings.filter (fun f => !(isCovered claims f))

/-- The auto-generated placeholder claim for a missing finding. -/
def mkMissingClaim (f : String) : ClaimDict :=
  { text := some f
    status := some "unverified"
    note := some "Auto-generated - LLM did not extract this finding" }

/-- Embedding of `FactCheckerAgent._ensure_claims_coverage(claims, findings)`.
(The `findings_set` local in the source is built and never used.) -/
def ensure_claims_coverage (claims : List ClaimDict) (findings : List String) :
    List ClaimDict :=
  if findings.length ≤ claims.length then claims
  else
    let missing_claims := (uncoveredFindings claims findings).map mkMissingClaim
    if missing_claims.isEmpty then claims else claims ++ missing_claims

/-! ### `src/infrastructure/llm.py` — `ResilientLLMWrapper.ainvoke`

The wrapped model call is an oracle `llm : Nat → Except String α`
giving the outcome of each underlying attempt.  The tenacity policy
`retry(stop=stop_after_attempt(n), ..., reraise=True)` retries every
exception up to `n` attempts and re-raises the last error. -/

/-- Outcome of a resilient LLM invocation. -/
inductive LLMOutcome (α : Type) where
  | circuitOpen
  | ok (v : α)
  | failed (e : String)
  deriving DecidableEq, Repr

/-- The tenacity-wrapped attempt sequence starting at attempt index `i`
with `fuel` attempts remaining: returns the final outcome and the total
number of attempts consumed. -/
def tenacityRun {α : Type} (llm : Nat → Except String α) (i : Nat) :
    Nat → Except String α × Nat
  | 0 => (.error "", i)
  | fuel + 1 =>
      match llm i with
      | .ok v => (.ok v, i + 1)
      | .error e => if fuel = 0 then (.error e, i + 1) else tenacityRun llm (i + 1) fuel

/-- Embedding of `ResilientLLMWrapper.ainvoke(messages)`: check `allow_request`, then
run the retry-wrapped attempt sequence.  Returns the outcome, the
breaker afterwards, and the number of underlying attempts consumed. -/
def ainvoke {α : Type} (b : CircuitBreaker) (now : Rat) (max_attempts : Nat)
    (llm : Nat → Except String α) : LLMOutcome α × CircuitBreaker × Nat :=
  let ab := b.allow_request now
  if ab.1 then
    let rn := tenacityRun llm 0 max_attempts
    (match rn.1 with
     | .ok v => .ok v
     | .error e => .failed e, ab.2, rn.2)
  else
    (.circuitOpen, ab.2, 0)

/-- The circuit breaker config hard-coded in `ResilientLLMWrapper.__init__`. -/
def llmCircuitConfig : CircuitBreakerConfig :=
  { failure_threshold := 5, cooldown_seconds := 30, timeout_seconds := 60 }

/-! ### `src/orchestration/workflow.py` -/

/-- Embedding of `WorkflowStage`. -/
inductive WorkflowStage where
  | RESEARCH
  | FACT_CHECK
  | SYNTHESIS
  | WRITING
  | REVIEW
  | COMPLETED
  | FAILED
  deriving DecidableEq, Repr

/-- Embedding of `WorkflowResult`. -/
structure WorkflowResult where
  status : WorkflowStage
  research : Option ResearchCompleted := none
  fact_check : Option FactCheckCompleted := none
  synthesis : Option SynthesisCompleted := none
  report : Option ReportWritten := none
  review : Option ReportReviewed := none
  error : Option String := none
  iterations : Nat := 0
  deriving DecidableEq, Repr

/-- The five agents as oracles.  A raised exception is `.error msg`
(the message is `str(e)`).  `synthesizer`, `writer` and `critic` take a
call counter to model per-call nondeterminism of the underlying LLM:
call 0 is the initial stage-3/4 pass, call `i + 1` happens during
review iteration `i` (revision or the `i`-th critic review). -/
structure Agents where
  researcher : String → Except String ResearchCompleted
  fact_checker : ResearchCompleted → Except String FactCheckCompleted
  synthesizer : Nat → ResearchCompleted → FactCheckCompleted → Except String SynthesisCompleted
  writer : Nat → SynthesisCompleted → Except String ReportWritten
  critic : Nat → ReportWritten → Except String ReportReviewed

/-- Reason the review loop broke out, mirroring the order of the two
`break` checks in `ResearchWorkflow.execute`: explicit approval is
tested first, the auto-approve threshold second. -/
inductive StopReason where
  | approvedStop
  | thresholdStop
  deriving DecidableEq, Repr

/-- The loop-exit test of one review iteration:
`if result.review.approved: break` then
`if result.review.score >= self.auto_approve_threshold: break`. -/
def stopKind (review : ReportReviewed) (auto_approve_threshold : Rat) : Option StopReason :=
  if review.approved then some .approvedStop
  else if auto_approve_threshold ≤ review.score then some .thresholdStop
  else none

/-- Stage 5, the `for iteration in range(max_iterations)` loop of
`ResearchWorkflow.execute`.  `i` is the iteration index, `remaining`
the iterations left (`i + remaining = max_iterations`); `syn`, `rep`,
`rev`, `iters` are the current values of the mutable `result` slots. -/
def reviewLoop (ag : Agents) (auto_approve_threshold : Rat)
    (research : ResearchCompleted) (fact_check : FactCheckCompleted) :
    Nat → Nat → SynthesisCompleted → ReportWritten → Option ReportReviewed → Nat →
    WorkflowResult
  | 0, _i, syn, rep, rev, iters =>
      { status := .COMPLETED, research := some research, fact_check := some fact_check,
        synthesis := some syn, report := some rep, review := rev,
        error := none, iterations := iters }
  | remaining + 1, i, syn, rep, rev, iters =>
      match ag.critic i rep with
      | .error e =>
          { status := .FAILED, research := some research, fact_check := some fact_check,
            synthesis := some syn, report := some rep, review := rev,
            error := some e, iterations := iters }
      | .ok review =>
          match stopKind review auto_approve_threshold with
          | some _ =>
              { status := .COMPLETED, research := some research,
                fact_check := some fact_check, synthesis := some syn,
                report := some rep, review := some review,
                error := none, iterations := i + 1 }
          | none =>
              match ag.synthesizer (i + 1) research fact_check with
              | .error e =>
                  { status := .FAILED, research := some research,
                    fact_check := some fact_check, synthesis := some syn,
                    report := some rep, review := some review,
                    error := some e, iterations := i + 1 }
              | .ok syn2 =>
                  match ag.writer (i + 1) syn2 with
                  | .error e =>
                      { status := .FAILED, research := some research,
                        fact_check := some fact_check, synthesis := some syn2,
                        report := some rep, review := some review,
                        error := some e, iterations := i + 1 }
                  | .ok rep2 =>
                      reviewLoop ag auto_approve_threshold research fact_check
                        remaining (i + 1) syn2 rep2 (some review) (i + 1)

/-- Stages 2-5 of `ResearchWorkflow.execute`, after a successful
research stage. -/
def executeFromResearch (ag : Agents) (max_iterations : Nat)
    (auto_approve_threshold : Rat) (research : ResearchCompleted) : WorkflowResult :=
  match ag.fact_checker research with
  | .error e => { status := .FAILED, research := some research, error := some e }
  | .ok fact_check =>
      match ag.synthesizer 0 research fact_check with
      | .error e =>
          { status := .FAILED, research := some research,
            fact_check := some fact_check, error := some e }
      | .ok syn =>
          match ag.writer 0 syn with
          | .error e =>
              { status := .FAILED, research := some research,
                fact_check := some fact_check, synthesis := some syn,
                error := some e }
          | .ok rep =>
              reviewLoop ag auto_approve_threshold research fact_check
                max_iterations 0 syn rep none 0

/-- Embedding of `ResearchWorkflow.execute(topic)`: stages 1-4 then the review loop;
any exception yields status FAILED with `error = str(e)` and the
already-populated slots preserved. -/
def execute (ag : Agents) (max_iterations : Nat) (auto_approve_threshold : Rat)
    (topic : String) : WorkflowResult :=
  match ag.researcher topic with
  | .error e => { status := .FAILED, error := some e }
  | .ok research =>
      executeFromResearch ag max_iterations auto_approve_threshold research

theorem record_failure_closed_fields (b : CircuitBreaker) (now : Rat)
    (h : b.state = .CLOSED) :
    (b.record_failure now).failure_count = b.failure_count + 1 ∧
    (b.record_failure now).config = b.config ∧
    (b.record_failure now).success_count = b.success_count ∧
    (b.record_failure now).state =
      (if b.config.failure_threshold ≤ b.failure_count + 1 then .OPEN else .CLOSED) := by
  simp only [CircuitBreaker.record_failure, h]
  split
  · simp_all
  · simp_all

theorem iterFailures_closed (b : CircuitBreaker) (now : Rat) (k : Nat)
    (h : b.state = .CLOSED) (hk : b.failure_count + k < b.config.failure_threshold) :
    (b.iterFailures now k).state = .CLOSED ∧
    (b.iterFailures now k).failure_count = b.failure_count + k ∧
    (b.iterFailures now k).config = b.config := by
  induction k with
  | zero => simp [CircuitBreaker.iterFailures, h]
  | succ n ih =>
      obtain ⟨h1, h2, h3⟩ := ih (by omega)
      have := record_failure_closed_fields (b.iterFailures now n) now h1
      simp only [CircuitBreaker.iterFailures]
      refine ⟨?_, ?_, ?_⟩
      · rw [this.2.2.2, h2, h3, if_neg (by omega)]
      · rw [this.1, h2]
        omega
      · rw [this.2.1, h3]

theorem iterFailures_opens (b : CircuitBreaker) (now : Rat) (k : Nat)
    (h : b.state = .CLOSED) (hs : b.failure_count + k = b.config.failure_threshold)
    (hk : 1 ≤ k) :
    (b.iterFailures now k).state = .OPEN ∧
    (b.iterFailures now k).opened_at = some now := by
  obtain ⟨m, rfl⟩ : ∃ m, k = m + 1 := ⟨k - 1, by omega⟩
  obtain ⟨h1, h2, h3⟩ := iterFailures_closed b now m h (by omega)
  simp only [CircuitBreaker.iterFailures]
  simp only [CircuitBreaker.record_failure, h1]
  rw [if_pos (show (b.iterFailures now m).config.failure_threshold ≤
      (b.iterFailures now m).failure_count + 1 by rw [h2, h3]; omega)]
  exact ⟨rfl, rfl⟩

theorem record_success_half_open_fields (b : CircuitBreaker) (now : Rat)
    (h : b.state = .HALF_OPEN) :
    (b.record_success now).config = b.config ∧
    (b.record_success now).state =
      (if b.config.success_threshold ≤ b.success_count + 1 then .CLOSED else .HALF_OPEN) ∧
    (b.record_success now).success_count =
      (if b.config.success_threshold ≤ b.success_count + 1 then 0 else b.success_count + 1) ∧
    (b.record_success now).failure_count =
      (if b.config.success_threshold ≤ b.success_count + 1 then 0 else b.failure_count) := by
  simp only [CircuitBreaker.record_success, h]
  by_cases hc : b.config.success_threshold ≤ b.success_count + 1
  · simp [hc]
  · simp [hc]

theorem iterSuccesses_half_open (b : CircuitBreaker) (now : Rat) (k : Nat)
    (h : b.state = .HALF_OPEN) (hk : b.success_count + k < b.config.success_threshold) :
    (b.iterSuccesses now k).state = .HALF_OPEN ∧
    (b.iterSuccesses now k).success_count = b.success_count + k ∧
    (b.iterSuccesses now k).config = b.config := by
  induction k with
  | zero => simp [CircuitBreaker.iterSuccesses, h]
  | succ n ih =>
      obtain ⟨h1, h2, h3⟩ := ih (by omega)
      have := record_success_half_open_fields (b.iterSuccesses now n) now h1
      simp only [CircuitBreaker.iterSuccesses]
      refine ⟨?_, ?_, ?_⟩
      · rw [this.2.1, h2, h3, if_neg (by omega)]
      · rw [this.2.2.1, h2, h3, if_neg (by omega)]
        omega
      · rw [this.1, h3]

theorem iterSuccesses_closes (b : CircuitBreaker) (now : Rat) (k : Nat)
    (h : b.state = .HALF_OPEN) (hs : b.success_count + k = b.config.success_threshold)
    (hk : 1 ≤ k) :
    (b.iterSuccesses now k).state = .CLOSED ∧
    (b.iterSuccesses now k).success_count = 0 ∧
    (b.iterSuccesses now k).failure_count = 0 := by
  obtain ⟨m, rfl⟩ : ∃ m, k = m + 1 := ⟨k - 1, by omega⟩
  obtain ⟨h1, h2, h3⟩ := iterSuccesses_half_open b now m h (by omega)
  have := record_success_half_open_fields (b.iterSuccesses now m) now h1
  simp only [CircuitBreaker.iterSuccesses]
  refine ⟨?_, ?_, ?_⟩
  · rw [this.2.1, h2, h3, if_pos (by omega)]
  · rw [this.2.2.1, h2, h3, if_pos (by omega)]
  · rw [this.2.2.2, h2, h3, if_pos (by omega)]

/-- C7: from CLOSED, exactly `failure_threshold` consecutive failures open
the circuit (fewer leave it CLOSED); once more than `cooldown_seconds`
have elapsed since opening, the next state read yields HALF_OPEN; from
HALF_OPEN, `success_threshold` consecutive successes close the circuit
(fewer leave it HALF_OPEN); a single failure while HALF_OPEN returns to
OPEN and restarts the cooldown timestamp. -/
theorem C7_breaker_state_machine :
    (∀ (name : String) (cfg : CircuitBreakerConfig) (now : Rat) (k : Nat),
        k < cfg.failure_threshold →
        ((CircuitBreaker.init name cfg).iterFailures now k).state = .CLOSED) ∧
    (∀ (name : String) (cfg : CircuitBreakerConfig) (now : Rat),
        1 ≤ cfg.failure_threshold →
        ((CircuitBreaker.init name cfg).iterFailures now cfg.failure_threshold).state = .OPEN) ∧
    (∀ (b : CircuitBreaker) (t now : Rat),
        b.state = .OPEN → b.opened_at = some t →
        t + b.config.cooldown_seconds < now →
        (b.readState now).1 = .HALF_OPEN) ∧
    (∀ (b : CircuitBreaker) (now : Rat) (k : Nat),
        b.state = .HALF_OPEN → b.success_count = 0 →
        k < b.config.success_threshold →
        (b.iterSuccesses now k).state = .HALF_OPEN) ∧
    (∀ (b : CircuitBreaker) (now : Rat),
        b.state = .HALF_OPEN → b.success_count = 0 → 1 ≤ b.config.success_threshold →
        (b.iterSuccesses now b.config.success_threshold).state = .CLOSED) ∧
    (∀ (b : CircuitBreaker) (now : Rat),
        b.state = .HALF_OPEN →
        (b.record_failure now).state = .OPEN ∧
        (b.record_failure now).opened_at = some now) := by
  refine ⟨?_, ?_, ?_, ?_, ?_, ?_⟩
  · intro name cfg now k hk
    exact (iterFailures_closed (CircuitBreaker.init name cfg) now k rfl
      (by simpa [CircuitBreaker.init] using hk)).1
  · intro name cfg now h1
    exact (iterFailures_opens (CircuitBreaker.init name cfg) now cfg.failure_threshold rfl
      (by simp [CircuitBreaker.init]) h1).1
  · intro b t now h1 h2 h3
    simp [CircuitBreaker.readState, h1, h2, if_pos h3]
  · intro b now k h1 h2 hk
    exact (iterSuccesses_half_open b now k h1 (by omega)).1
  · intro b now h1 h2 h3
    exact (iterSuccesses_closes b now b.config.success_threshold h1 (by omega) h3).1
  · intro b now h1
    simp [CircuitBreaker.record_failure, h1]

/-- C7 witness: a breaker with thresholds 2/2 and 30s cooldown walked
through the full CLOSED → OPEN → HALF_OPEN → CLOSED cycle. -/
theorem C7_breaker_state_machine_witness :
    ((CircuitBreaker.init "llm_gpt-4o" ⟨2, 2, 30, 30⟩).iterFailures 0 1).state = .CLOSED ∧
    ((CircuitBreaker.init "llm_gpt-4o" ⟨2, 2, 30, 30⟩).iterFailures 0 2).state = .OPEN ∧
    (({ CircuitBreaker.init "llm_gpt-4o" ⟨2, 2, 30, 30⟩ with
        state := .OPEN, opened_at := some 0 }).readState 31).1 = .HALF_OPEN ∧
    (({ CircuitBreaker.init "llm_gpt-4o" ⟨2, 2, 30, 30⟩ with
        state := .HALF_OPEN }).iterSuccesses 5 2).state = .CLOSED ∧
    (({ CircuitBreaker.init "llm_gpt-4o" ⟨2, 2, 30, 30⟩ with
        state := .HALF_OPEN }).record_failure 40).state = .OPEN :=
  ⟨C7_breaker_state_machine.1 "llm_gpt-4o" ⟨2, 2, 30, 30⟩ 0 1 (by decide),
   C7_breaker_state_machine.2.1 "llm_gpt-4o" ⟨2, 2, 30, 30⟩ 0 (by decide),
   C7_breaker_state_machine.2.2.1 _ 0 31 rfl rfl (by norm_num [CircuitBreaker.init]),
   C7_breaker_state_machine.2.2.2.2.1 _ 5 rfl rfl (by decide),
   (C7_breaker_state_machine.2.2.2.2.2 _ 40 rfl).1⟩

/-- C8 counterexample: with `failure_threshold = 2`, a success recorded in
CLOSED does not reset the consecutive-failure counter, and two failures
interleaved with a success still open the circuit — refuting the claim. -/
theorem C8_counterexample :
    (((CircuitBreaker.init "llm_gpt-4o" ⟨2, 3, 30, 30⟩).record_failure 0).record_success 1).failure_count = 1 ∧
    ((((CircuitBreaker.init "llm_gpt-4o" ⟨2, 3, 30, 30⟩).record_failure 0).record_success 1).record_failure 2).state = .OPEN := by
  exact ⟨rfl, rfl⟩

/-- C8 amended: a success recorded while CLOSED updates only the running
statistics; it leaves the consecutive-failure counter, the
consecutive-success counter, the state and the opened-at timestamp
unchanged, so interleaved successes do not prevent the circuit from
opening. -/
theorem C8_closed_success_frame (b : CircuitBreaker) (now : Rat)
    (h : b.state = .CLOSED) :
    (b.record_success now).state = .CLOSED ∧
    (b.record_success now).failure_count = b.failure_count ∧
    (b.record_success now).success_count = b.success_count ∧
    (b.record_success now).opened_at = b.opened_at ∧
    (b.record_success now).stats.successful_calls = b.stats.successful_calls + 1 := by
  simp [CircuitBreaker.record_success, h]

/-- C8 amended witness: instantiated at a concrete CLOSED breaker with
one recorded failure. -/
theorem C8_closed_success_frame_witness :
    (((CircuitBreaker.init "llm_gpt-4o" ⟨2, 3, 30, 30⟩).record_failure 0).record_success 1).state = .CLOSED ∧
    (((CircuitBreaker.init "llm_gpt-4o" ⟨2, 3, 30, 30⟩).record_failure 0).record_success 1).failure_count =
      ((CircuitBreaker.init "llm_gpt-4o" ⟨2, 3, 30, 30⟩).record_failure 0).failure_count :=
  ⟨(C8_closed_success_frame _ 1 rfl).1, (C8_closed_success_frame _ 1 rfl).2.1⟩

/-- C10: `record_failure` never touches the consecutive-success counter
(in particular the HALF_OPEN → OPEN transition keeps it); the counter is
zeroed by the administrative registry reset; consequently a later
HALF_OPEN episode closes after `success_threshold - residual` further
successes. -/
theorem C10_success_counter_residual :
    (∀ (b : CircuitBreaker) (now : Rat),
        (b.record_failure now).success_count = b.success_count) ∧
    (∀ b : CircuitBreaker,
        b.registryReset.success_count = 0 ∧
        b.registryReset.failure_count = 0 ∧
        b.registryReset.state = .CLOSED) ∧
    (∀ (b : CircuitBreaker) (now : Rat),
        b.state = .HALF_OPEN → b.success_count < b.config.success_threshold →
        (b.iterSuccesses now (b.config.success_threshold - b.success_count)).state = .CLOSED) := by
  refine ⟨?_, ?_, ?_⟩
  · intro b now
    cases h : b.state
    · simp only [CircuitBreaker.record_failure, h]
      split <;> rfl
    · simp [CircuitBreaker.record_failure, h]
    · simp [CircuitBreaker.record_failure, h]
  · intro b
    exact ⟨rfl, rfl, rfl⟩
  · intro b now h1 h2
    exact (iterSuccesses_closes b now (b.config.success_threshold - b.success_count) h1
      (by omega) (by omega)).1

/-- C10 witness: a breaker with `success_threshold = 3` and a residual
counter of 2 closes after a single further success. -/
theorem C10_success_counter_residual_witness :
    (({ CircuitBreaker.init "llm_gpt-4o" ⟨2, 3, 30, 30⟩ with
        state := .HALF_OPEN, success_count := 2 }).record_failure 7).success_count = 2 ∧
    (({ CircuitBreaker.init "llm_gpt-4o" ⟨2, 3, 30, 30⟩ with
        state := .HALF_OPEN, success_count := 2 }).iterSuccesses 9 1).state = .CLOSED :=
  ⟨C10_success_counter_residual.1 _ 7,
   by
    have := C10_success_counter_residual.2.2 ({ CircuitBreaker.init "llm_gpt-4o" ⟨2, 3, 30, 30⟩ with
        state := .HALF_OPEN, success_count := 2 }) 9 rfl (by decide)
    simpa using this⟩

theorem readState_frame (b : CircuitBreaker) (now : Rat) :
    (b.readState now).2.stats = b.stats ∧
    (b.readState now).2.failure_count = b.failure_count ∧
    (b.readState now).2.success_count = b.success_count ∧
    (b.readState now).2.config = b.config := by
  unfold CircuitBreaker.readState
  rcases h : b.state with _ | _ | _ <;> rcases ho : b.opened_at with _ | t <;>
    simp [h, ho]
  split <;> simp

theorem allow_request_false_frame (b : CircuitBreaker) (now : Rat)
    (h : (b.allow_request now).1 = false) : (b.allow_request now).2 = b := by
  unfold CircuitBreaker.allow_request at *
  unfold CircuitBreaker.readState at *
  rcases hs : b.state with _ | _ | _ <;> rcases ho : b.opened_at with _ | t <;>
    simp_all
  by_cases hc : t + b.config.cooldown_seconds < now
  · simp [hc] at h
  · simp [hc]

/-- C2 counterexample: a fresh CLOSED breaker, an operation failing on
both of its two attempts — the attempt sequence completes in failure yet
the breaker afterwards has recorded no failure at all (`failed_calls`
still 0, not 1): `ainvoke` never calls `record_success`/`record_failure`. -/
theorem C2_counterexample :
    ainvoke (CircuitBreaker.init "llm_gpt-4o" llmCircuitConfig) 0 2
        (fun _ => (.error "boom" : Except String Nat)) =
      (.failed "boom", CircuitBreaker.init "llm_gpt-4o" llmCircuitConfig, 2) ∧
    (ainvoke (CircuitBreaker.init "llm_gpt-4o" llmCircuitConfig) 0 2
        (fun _ => (.error "boom" : Except String Nat))).2.1.stats.failed_calls = 0 :=
  ⟨rfl, rfl⟩

/-- C2 amended: (a) if the breaker disallows the request, `ainvoke` fails
circuit-open with zero underlying attempts and the breaker unchanged;
(b) if it allows, the outcome and attempt count are exactly those of the
tenacity attempt sequence; and in every case the breaker afterwards has
recorded nothing: statistics and both consecutive counters are unchanged
(zero success/failure records per completed attempt sequence, not one). -/
theorem C2_ainvoke_records_nothing {α : Type} (b : CircuitBreaker) (now : Rat)
    (max_attempts : Nat) (llm : Nat → Except String α) :
    ((b.allow_request now).1 = false →
      ainvoke b now max_attempts llm = (.circuitOpen, b, 0)) ∧
    ((b.allow_request now).1 = true →
      (ainvoke b now max_attempts llm).2.1 = (b.allow_request now).2 ∧
      (ainvoke b now max_attempts llm).2.2 = (tenacityRun llm 0 max_attempts).2 ∧
      (ainvoke b now max_attempts llm).1 =
        (match (tenacityRun llm 0 max_attempts).1 with
         | .ok v => .ok v
         | .error e => .failed e)) ∧
    ((ainvoke b now max_attempts llm).2.1.stats = b.stats ∧
      (ainvoke b now max_attempts llm).2.1.failure_count = b.failure_count ∧
      (ainvoke b now max_attempts llm).2.1.success_count = b.success_count) := by
  refine ⟨?_, ?_, ?_⟩
  · intro h
    rw [show ainvoke b now max_attempts llm = (.circuitOpen, (b.allow_request now).2, 0) by
      simp [ainvoke, h], allow_request_false_frame b now h]
  · intro h
    simp [ainvoke, h]
  · have hb : (ainvoke b now max_attempts llm).2.1 = (b.allow_request now).2 := by
      by_cases h : (b.allow_request now).1 <;> simp [ainvoke, h]
    rw [hb]
    have := readState_frame b now
    exact ⟨this.1, this.2.1, this.2.2.1⟩

/-- C2 amended witness: the rejected case on an OPEN breaker inside its
cooldown, and the allowed case on a fresh breaker whose single attempt
succeeds. -/
theorem C2_ainvoke_records_nothing_witness :
    ainvoke ({ CircuitBreaker.init "llm_gpt-4o" llmCircuitConfig with
        state := .OPEN, opened_at := some 0 }) 1 3
        (fun _ => (.error "rate limit" : Except String Nat)) =
      (.circuitOpen, { CircuitBreaker.init "llm_gpt-4o" llmCircuitConfig with
        state := .OPEN, opened_at := some 0 }, 0) ∧
    (ainvoke (CircuitBreaker.init "llm_gpt-4o" llmCircuitConfig) 0 1
        (fun _ => (.ok 42 : Except String Nat))).2.2 = 1 :=
  ⟨(C2_ainvoke_records_nothing _ 1 3 _).1 (by
    norm_num [CircuitBreaker.allow_request, CircuitBreaker.readState, CircuitBreaker.init, llmCircuitConfig]),
   ((C2_ainvoke_records_nothing _ 0 1 _).2.1 (by decide)).2.1⟩

/-- C9: an exception whose (lowercased) message contains a
billing/quota/account keyword is never retryable, regardless of any
retryable keyword or type-name signal; absent such a keyword, the error
is retryable exactly when the message contains a rate-limit/timeout/
service-unavailable keyword or the exception's type name is a known
transient type, and non-retryable otherwise. -/
theorem C9_retry_classifier (t m : String) :
    ((∃ k ∈ nonRetryableKeywords, pyIn k (pyLower m) = true) →
      is_retryable_error t m = false) ∧
    ((∀ k ∈ nonRetryableKeywords, pyIn k (pyLower m) = false) →
      (is_retryable_error t m = true ↔
        ((∃ k ∈ retryableKeywords, pyIn k (pyLower m) = true) ∨ t ∈ retryableTypes))) := by
  constructor
  · rintro ⟨k, hk, hin⟩
    have hany : nonRetryableKeywords.any (fun k => pyIn k (pyLower m)) = true :=
      List.any_eq_true.mpr ⟨k, hk, hin⟩
    simp [is_retryable_error, hany]
  · intro h
    have hany : nonRetryableKeywords.any (fun k => pyIn k (pyLower m)) = false := by
      simp only [List.any_eq_false]
      intro k hk
      simp [h k hk]
    by_cases hr : retryableKeywords.any (fun k => pyIn k (pyLower m)) = true
    · simp only [is_retryable_error, hany, Bool.false_eq_true, if_false, hr, if_true]
      simp only [true_iff]
      exact Or.inl (List.any_eq_true.mp hr)
    · have hr' : retryableKeywords.any (fun k => pyIn k (pyLower m)) = false :=
        Bool.eq_false_iff.mpr hr
      simp only [is_retryable_error, hany, Bool.false_eq_true, if_false, hr', if_true]
      constructor
      · intro hc
        exact Or.inr (List.elem_iff.mp hc)
      · rintro (⟨k, hk, hin⟩ | hmem)
        · exact absurd (List.any_eq_true.mpr ⟨k, hk, hin⟩) hr
        · exact List.elem_iff.mpr hmem

/-- C9 witness: a quota message suppresses the retryable rate-limit
signal; a rate-limit message is retryable; a transient type name is
retryable; an unrecognised error is not. -/
theorem C9_retry_classifier_witness :
    is_retryable_error "RateLimitError" "You exceeded your current quota: rate limit billing" = false ∧
    is_retryable_error "SomeError" "Rate limit reached" = true ∧
    is_retryable_error "TimeoutError" "connection stalled" = true ∧
    is_retryable_error "ValueError" "bad input" = false := by
  refine ⟨?_, ?_, ?_, ?_⟩
  · exact (C9_retry_classifier "RateLimitError"
      "You exceeded your current quota: rate limit billing").1 ⟨"quota", by decide, by decide⟩
  · exact ((C9_retry_classifier "SomeError" "Rate limit reached").2 (by decide)).mpr
      (Or.inl ⟨"rate limit", by decide, by decide⟩)
  · exact ((C9_retry_classifier "TimeoutError" "connection stalled").2 (by decide)).mpr
      (Or.inr (by decide))
  · exact Bool.eq_false_iff.mpr (fun hh =>
      absurd (((C9_retry_classifier "ValueError" "bad input").2 (by decide)).mp hh) (by decide))

theorem uuidStr_injective : Function.Injective uuidStr := by
  intro j k h
  have hl : (uuidStr j).toList.length = (uuidStr k).toList.length := by rw [h]
  simpa [uuidStr, String.toList] using hl

theorem uuidStr_ne_empty (n : Nat) : uuidStr n ≠ "" := by
  intro h
  have hl : (uuidStr n).toList.length = ("" : String).toList.length := by rw [h]
  simp [uuidStr, String.toList] at hl

/-- C3 counterexample: a workflow execution started without a
caller-supplied correlation id gets the empty string, not a fresh unique
non-empty id; and two events created from that context (with distinct
uuid draws) carry different correlation ids, so the events do not share
one id. -/
theorem C3_counterexample :
    (AgentContext.create none 0).correlation_id = "" ∧
    (ResearchCompleted.create "quantum computing" [] []
        (some (AgentContext.create none 0).correlation_id) (uuidStr 0) (uuidStr 1) 0).correlation_id ≠
      (FactCheckCompleted.create [] [] []
        (some (AgentContext.create none 0).correlation_id) (uuidStr 2) (uuidStr 3) 0).correlation_id := by
  exact ⟨rfl, by decide⟩

/-- C3 amended: without a caller-supplied id the context's correlation id
is the empty string; since `""` is falsy, every event factory then
substitutes its own fresh uuid (uuid draws are pairwise distinct and
non-empty), so the execution's events carry distinct fresh ids rather
than one shared id.  A caller-supplied non-empty correlation id is
propagated unchanged into the context and into every one of the five
event types. -/
theorem C3_correlation_id_propagation :
    ((AgentContext.create none 0).correlation_id = "" ∧ ∀ now : Rat,
      (AgentContext.create none now).correlation_id = "") ∧
    (∀ j k : Nat, j ≠ k → uuidStr j ≠ uuidStr k) ∧
    (∀ (topic : String) (sources : List (List (String × String)))
        (findings : List String) (eid : String) (j : Nat) (now tc : Rat),
      (ResearchCompleted.create topic sources findings
        (some (AgentContext.create none tc).correlation_id) eid (uuidStr j) now).correlation_id =
        uuidStr j) ∧
    (∀ cid : String, cid ≠ "" → ∀ (now : Rat) (eid fcid : String),
      (AgentContext.create (some cid) now).correlation_id = cid ∧
      (∀ (topic : String) (sources : List (List (String × String))) (findings : List String),
        (ResearchCompleted.create topic sources findings (some cid) eid fcid now).correlation_id = cid) ∧
      (∀ (claims vclaims : List ClaimDict) (scores : List (String × Rat)),
        (FactCheckCompleted.create claims vclaims scores (some cid) eid fcid now).correlation_id = cid) ∧
      (∀ (insights : List String) (rc : List (List (String × String))),
        (SynthesisCompleted.create insights rc (some cid) eid fcid now).correlation_id = cid) ∧
      (∀ title content format : String,
        (ReportWritten.create title content format (some cid) eid fcid now).correlation_id = cid) ∧
      (∀ (suggestions : List String) (score : Rat) (approved : Bool),
        (ReportReviewed.create suggestions score approved (some cid) eid fcid now).correlation_id = cid)) := by
  refine ⟨⟨rfl, fun _ => rfl⟩, ?_, ?_, ?_⟩
  · intro j k hjk h
    exact hjk (uuidStr_injective h)
  · intro topic sources findings eid j now tc
    simp [ResearchCompleted.create, AgentContext.create, pyOrStr]
  · intro cid hcid now eid fcid
    refine ⟨?_, fun _ _ _ => ?_, fun _ _ _ => ?_, fun _ _ => ?_, fun _ _ _ => ?_,
        fun _ _ _ => ?_⟩ <;>
      simp [AgentContext.create, ResearchCompleted.create, FactCheckCompleted.create,
        SynthesisCompleted.create, ReportWritten.create, ReportReviewed.create,
        pyOrStr, hcid]

/-- C3 amended witness: concrete instantiations of the propagation
facts. -/
theorem C3_correlation_id_propagation_witness :
    (ResearchCompleted.create "t" [] []
      (some (AgentContext.create none 0).correlation_id) "eid" (uuidStr 5) 0).correlation_id =
        uuidStr 5 ∧
    (AgentContext.create (some "req-42") 0).correlation_id = "req-42" ∧
    (ReportReviewed.create [] 1 true (some "req-42") "eid" "fcid" 0).correlation_id = "req-42" :=
  ⟨C3_correlation_id_propagation.2.2.1 "t" [] [] "eid" 5 0 0,
   (C3_correlation_id_propagation.2.2.2 "req-42" (by decide) 0 "eid" "fcid").1,
   (C3_correlation_id_propagation.2.2.2 "req-42" (by decide) 0 "eid" "fcid").2.2.2.2.2 [] 1 true⟩

/-- C4 counterexample: two findings whose fingerprints both occur in the
first 50 characters of a single returned claim — the coverage step adds
nothing and the resulting claim count (1) stays below the finding count
(2), refuting the unconditional coverage invariant. -/
theorem C4_counterexample :
    ¬ (["a", "b"].length ≤
        (ensure_claims_coverage [{ text := some "a b", status := some "verified" }]
          ["a", "b"]).length) := by
  decide

/-- C4 amended: the coverage step changes nothing when the LLM returned
at least as many claims as findings; otherwise it appends exactly one
UNVERIFIED placeholder per finding whose first-50-characters
case-insensitive fingerprint does not occur in the first 50 characters
of any existing claim's text, so the output length is the claim count
plus the number of uncovered findings — at least the finding count
whenever every finding is uncovered (in particular when no claims were
returned), but possibly smaller when one claim's leading text covers
several findings. -/
theorem C4_coverage_mechanism (claims : List ClaimDict) (findings : List String) :
    (findings.length ≤ claims.length →
      ensure_claims_coverage claims findings = claims) ∧
    (claims.length < findings.length →
      ensure_claims_coverage claims findings =
        claims ++ (uncoveredFindings claims findings).map mkMissingClaim) ∧
    (claims.length < findings.length →
      (ensure_claims_coverage claims findings).length =
        claims.length + (uncoveredFindings claims findings).length) ∧
    (claims.length < findings.length → uncoveredFindings claims findings = findings →
      findings.length ≤ (ensure_claims_coverage claims findings).length) ∧
    (∀ c ∈ (uncoveredFindings claims findings).map mkMissingClaim,
      c.status = some "unverified") := by
  have hmap : ∀ h : claims.length < findings.length,
      ensure_claims_coverage claims findings =
        claims ++ (uncoveredFindings claims findings).map mkMissingClaim := by
    intro h
    rw [ensure_claims_coverage, if_neg (by omega)]
    by_cases he : ((uncoveredFindings claims findings).map mkMissingClaim).isEmpty
    · rw [if_pos he, List.isEmpty_iff.mp he, List.append_nil]
    · rw [if_neg he]
  refine ⟨?_, hmap, ?_, ?_, ?_⟩
  · intro h
    rw [ensure_claims_coverage, if_pos h]
  · intro h
    rw [hmap h, List.length_append, List.length_map]
  · intro h hall
    rw [hmap h, List.length_append, List.length_map, hall]
    omega
  · intro c hc
    obtain ⟨f, _, rfl⟩ := List.mem_map.mp hc
    rfl

/-- C4 amended witness: with no returned claims, both findings are
uncovered and the output reaches the finding count. -/
theorem C4_coverage_mechanism_witness :
    ensure_claims_coverage [] ["Finding A", "Finding B"] =
      [mkMissingClaim "Finding A", mkMissingClaim "Finding B"] ∧
    (["Finding A", "Finding B"] : List String).length ≤
      (ensure_claims_coverage [] ["Finding A", "Finding B"]).length :=
  ⟨by
    have := (C4_coverage_mechanism [] ["Finding A", "Finding B"]).2.1 (by decide)
    rw [this]
    decide,
   (C4_coverage_mechanism [] ["Finding A", "Finding B"]).2.2.2.1 (by decide) (by decide)⟩

/-- Concrete sample events for instantiating workflow runs. -/
def sampleResearch : ResearchCompleted :=
  { event_id := "e1", timestamp := 0, correlation_id := "c",
    event_type := "research.completed", topic := "quantum computing",
    sources := [[("url", "https://example.org"), ("title", "QC")]],
    findings := ["Qubits superpose"] }

def sampleFactCheck : FactCheckCompleted :=
  { event_id := "e2", timestamp := 0, correlation_id := "c",
    event_type := "fact_check.completed",
    claims := [{ text := some "Qubits superpose", status := some "verified" }],
    verified_claims := [], confidence_scores := [] }

def sampleSynthesis : SynthesisCompleted :=
  { event_id := "e3", timestamp := 0, correlation_id := "c",
    event_type := "synthesis.completed", insights := ["QC is promising"],
    resolved_contradictions := [] }

def sampleReport : ReportWritten :=
  { event_id := "e4", timestamp := 0, correlation_id := "c",
    event_type := "report.written", title := "QC", content := "report body",
    format := "markdown" }

def sampleReview (approved : Bool) (score : Rat) : ReportReviewed :=
  { event_id := "e5", timestamp := 0, correlation_id := "c",
    event_type := "report.reviewed", suggestions := [], score := score,
    approved := approved }

/-- Agents whose five stages all succeed deterministically, with the
critic always returning `rv`. -/
def sampleAgents (rv : ReportReviewed) : Agents :=
  { researcher := fun _ => .ok sampleResearch
    fact_checker := fun _ => .ok sampleFactCheck
    synthesizer := fun _ _ _ => .ok sampleSynthesis
    writer := fun _ _ => .ok sampleReport
    critic := fun _ _ => .ok rv }

/-- Agents whose researcher raises. -/
def failingResearcherAgents : Agents :=
  { sampleAgents (sampleReview true 1) with
    researcher := fun _ => .error "Invalid input for agent researcher" }

/-- C1: whichever stage of `execute` raises, the result has status
FAILED, `error` is exactly the raised message, every slot populated by
an earlier completed stage keeps its value, and every slot of a stage
not yet completed is `none` — in particular a researcher failure leaves
all five event slots `none`. -/
theorem C1_stage_failure (ag : Agents) (mi : Nat) (thr : Rat) (topic : String) :
    (∀ e, ag.researcher topic = .error e →
      execute ag mi thr topic = { status := .FAILED, error := some e }) ∧
    (∀ r e, ag.researcher topic = .ok r → ag.fact_checker r = .error e →
      execute ag mi thr topic =
        { status := .FAILED, research := some r, error := some e }) ∧
    (∀ r f e, ag.researcher topic = .ok r → ag.fact_checker r = .ok f →
        ag.synthesizer 0 r f = .error e →
      execute ag mi thr topic =
        { status := .FAILED, research := some r, fact_check := some f,
          error := some e }) ∧
    (∀ r f s e, ag.researcher topic = .ok r → ag.fact_checker r = .ok f →
        ag.synthesizer 0 r f = .ok s → ag.writer 0 s = .error e →
      execute ag mi thr topic =
        { status := .FAILED, research := some r, fact_check := some f,
          synthesis := some s, error := some e }) ∧
    (∀ r f s p e n, mi = n + 1 →
        ag.researcher topic = .ok r → ag.fact_checker r = .ok f →
        ag.synthesizer 0 r f = .ok s → ag.writer 0 s = .ok p →
        ag.critic 0 p = .error e →
      execute ag mi thr topic =
        { status := .FAILED, research := some r, fact_check := some f,
          synthesis := some s, report := some p, review := none,
          error := some e, iterations := 0 }) ∧
    (∀ r f rem i syn rep rev iters e, ag.critic i rep = .error e →
      reviewLoop ag thr r f (rem + 1) i syn rep rev iters =
        { status := .FAILED, research := some r, fact_check := some f,
          synthesis := some syn, report := some rep, review := rev,
          error := some e, iterations := iters }) ∧
    (∀ r f rem i syn rep (rev : Option ReportReviewed) rv iters e,
        ag.critic i rep = .ok rv →
        stopKind rv thr = none → ag.synthesizer (i + 1) r f = .error e →
      reviewLoop ag thr r f (rem + 1) i syn rep rev iters =
        { status := .FAILED, research := some r, fact_check := some f,
          synthesis := some syn, report := some rep, review := some rv,
          error := some e, iterations := i + 1 }) ∧
    (∀ r f rem i syn rep (rev : Option ReportReviewed) rv s2 iters e,
        ag.critic i rep = .ok rv →
        stopKind rv thr = none → ag.synthesizer (i + 1) r f = .ok s2 →
        ag.writer (i + 1) s2 = .error e →
      reviewLoop ag thr r f (rem + 1) i syn rep rev iters =
        { status := .FAILED, research := some r, fact_check := some f,
          synthesis := some s2, report := some rep, review := some rv,
          error := some e, iterations := i + 1 }) := by
  refine ⟨?_, ?_, ?_, ?_, ?_, ?_, ?_, ?_⟩
  · intro e h
    simp [execute, h]
  · intro r e h1 h2
    simp [execute, executeFromResearch, h1, h2]
  · intro r f e h1 h2 h3
    simp [execute, executeFromResearch, h1, h2, h3]
  · intro r f s e h1 h2 h3 h4
    simp [execute, executeFromResearch, h1, h2, h3, h4]
  · intro r f s p e n hmi h1 h2 h3 h4 h5
    subst hmi
    simp [execute, executeFromResearch, reviewLoop, h1, h2, h3, h4, h5]
  · intro r f rem i syn rep rev iters e h
    simp [reviewLoop, h]
  · intro r f rem i syn rep rev rv iters e h1 h2 h3
    simp [reviewLoop, h1, h2, h3]
  · intro r f rem i syn rep rev rv s2 iters e h1 h2 h3 h4
    simp [reviewLoop, h1, h2, h3, h4]

/-- C1 witness: the researcher raises, so the result is FAILED with all
five event slots `none` and the message captured verbatim. -/
theorem C1_stage_failure_witness :
    execute failingResearcherAgents 3 (4/5) "quantum computing" =
      { status := .FAILED, error := some "Invalid input for agent researcher" } :=
  (C1_stage_failure failingResearcherAgents 3 (4/5) "quantum computing").1
    "Invalid input for agent researcher" rfl

/-- C5: with `max_iterations = 0` and stages 1-4 all succeeding, the
iterative `execute` returns COMPLETED with `iterations = 0` and
`review = none`: the review loop body never runs, and reaching the end
of the stages without an exception still yields COMPLETED. -/
theorem C5_zero_iterations (ag : Agents) (thr : Rat) (topic : String)
    (r : ResearchCompleted) (f : FactCheckCompleted) (s : SynthesisCompleted)
    (p : ReportWritten)
    (h1 : ag.researcher topic = .ok r) (h2 : ag.fact_checker r = .ok f)
    (h3 : ag.synthesizer 0 r f = .ok s) (h4 : ag.writer 0 s = .ok p) :
    execute ag 0 thr topic =
      { status := .COMPLETED, research := some r, fact_check := some f,
        synthesis := some s, report := some p, review := none,
        error := none, iterations := 0 } := by
  simp [execute, executeFromResearch, reviewLoop, h1, h2, h3, h4]

/-- C5 witness: concrete agents, `max_iterations = 0`. -/
theorem C5_zero_iterations_witness :
    execute (sampleAgents (sampleReview true 1)) 0 (4/5) "quantum computing" =
      { status := .COMPLETED, research := some sampleResearch,
        fact_check := some sampleFactCheck, synthesis := some sampleSynthesis,
        report := some sampleReport, review := none, error := none,
        iterations := 0 } :=
  C5_zero_iterations (sampleAgents (sampleReview true 1)) (4/5) "quantum computing"
    sampleResearch sampleFactCheck sampleSynthesis sampleReport rfl rfl rfl rfl

/-- C6: each review iteration stops the loop exactly when
`review.approved` or `review.score ≥ auto_approve_threshold`, with the
explicit-approval check short-circuiting before the threshold check;
and a critic that always returns `approved = false`, `score = 1/2`
under `max_iterations = 2`, `auto_approve_threshold = 1` yields
COMPLETED with `iterations = 2` and an unapproved review. -/
theorem C6_review_stop_policy :
    (∀ (rv : ReportReviewed) (thr : Rat), rv.approved = true →
        stopKind rv thr = some .approvedStop) ∧
    (∀ (rv : ReportReviewed) (thr : Rat),
        (stopKind rv thr).isSome = (rv.approved || decide (thr ≤ rv.score))) ∧
    (∀ (ag : Agents) (topic : String) (r : ResearchCompleted) (f : FactCheckCompleted)
        (syn : Nat → SynthesisCompleted) (rep : Nat → ReportWritten) (rv : ReportReviewed),
        ag.researcher topic = .ok r →
        ag.fact_checker r = .ok f →
        (∀ n, ag.synthesizer n r f = .ok (syn n)) →
        (∀ n, ag.writer n (syn n) = .ok (rep n)) →
        (∀ n p, ag.critic n p = .ok rv) →
        rv.approved = false → rv.score = 1/2 →
        execute ag 2 1 topic =
          { status := .COMPLETED, research := some r, fact_check := some f,
            synthesis := some (syn 2), report := some (rep 2), review := some rv,
            error := none, iterations := 2 }) := by
  refine ⟨?_, ?_, ?_⟩
  · intro rv thr h
    simp [stopKind, h]
  · intro rv thr
    by_cases ha : rv.approved = true
    · simp [stopKind, ha]
    · by_cases hs : thr ≤ rv.score
      · simp [stopKind, ha, hs]
      · simp [stopKind, ha, hs]
  · intro ag topic r f syn rep rv h1 h2 hs hw hc happ hscore
    have hstop : stopKind rv 1 = none := by
      simp only [stopKind, happ, Bool.false_eq_true, if_false, hscore]
      rw [if_neg (by norm_num)]
    simp [execute, executeFromResearch, reviewLoop, h1, h2, hs, hw, hc, hstop]

/-- C6 witness: concrete agents with an always-rejecting critic. -/
theorem C6_review_stop_policy_witness :
    execute (sampleAgents (sampleReview false (1/2))) 2 1 "quantum computing" =
      { status := .COMPLETED, research := some sampleResearch,
        fact_check := some sampleFactCheck, synthesis := some sampleSynthesis,
        report := some sampleReport, review := some (sampleReview false (1/2)),
        error := none, iterations := 2 } :=
  C6_review_stop_policy.2.2 (sampleAgents (sampleReview false (1/2)))
    "quantum computing" sampleResearch sampleFactCheck
    (fun _ => sampleSynthesis) (fun _ => sampleReport) (sampleReview false (1/2))
    rfl rfl (fun _ => rfl) (fun _ => rfl) (fun _ _ => rfl) rfl rfl
